import Mathlib

set_option maxRecDepth 10000

/-!
Verification of the WalkerHolic asynchronous monitoring layer.

This file gives a shallow embedding of the two monitors of the repository:

* the diagnosis polling loop of
  `src/front/src/pages/GaitAnalysisPage.jsx` (`handleStartAnalysis`),
* the realtime fall-alert hook of
  `src/front/src/hooks/useFallAlert.js` (`useFallAlert`), and
* the fall-alert countdown component of
  `src/front/src/components/common/FallAlert.jsx` (`FallAlert`),

and proves (or refutes) the specification claims about them.  Timing is
collapsed: each timer/interval callback becomes one transition of a step
function, and the observable side effects (alerts, `setState` calls,
`console.warn`, opened channels, scheduled timeouts) are recorded in the
state.
-/

/-! ## A small model of JavaScript values

Only what the code under scrutiny inspects: truthiness, `typeof x ===
'object'` (which is also true of `null` and arrays in JavaScript), and
property access (returning `undefined` on a missing key or a non-object).
Numeric literals carry exact rationals; the code performs no arithmetic on
them, it only stores and forwards them. -/

inductive JsVal where
  | vUndef : JsVal
  | vNull : JsVal
  | vBool (b : Bool) : JsVal
  | vNum (q : ℚ) : JsVal
  | vStr (s : String) : JsVal
  | vArr (items : List JsVal) : JsVal
  | vObj (fields : List (String × JsVal)) : JsVal

/-- JavaScript truthiness of a value. -/
def JsVal.truthy : JsVal → Bool
  | .vUndef => false
  | .vNull => false
  | .vBool b => b
  | .vNum q => if q = 0 then false else true
  | .vStr s => if s = "" then false else true
  | .vArr _ => true
  | .vObj _ => true

/-- Whether `typeof v === 'object'` holds in JavaScript (true for objects,
arrays and `null`). -/
def JsVal.isObjectType : JsVal → Bool
  | .vNull => true
  | .vArr _ => true
  | .vObj _ => true
  | _ => false

/-- Property access `v[k]`: the first binding of `k` in an object,
`undefined` otherwise. -/
def JsVal.getField (v : JsVal) (k : String) : JsVal :=
  match v with
  | .vObj fields => ((fields.find? (fun p => p.1 == k)).map (fun p => p.2)).getD .vUndef
  | _ => .vUndef

namespace Gait

/-! ## The diagnosis polling monitor

Shallow embedding of the polling loop inside `handleStartAnalysis`
(`src/front/src/pages/GaitAnalysisPage.jsx`, lines 61-209).  One
`setInterval` callback invocation becomes one application of `pollTick`.
The loop-local data (`attempts`, whether `clearInterval(checkResult)` has
been called) lives in `Loop`; the React component state the callback
mutates (`analysisProgress`, `analysisMessage`, `isAnalyzing`, `gaitData`)
plus the delivered alert live in `PageView`. -/

/-- Loop-local state of one polling loop: the `attempts` counter and
whether this loop's interval is still scheduled (`clearInterval` not yet
called on it). -/
structure Loop where
  attempts : Nat
  timerActive : Bool
  deriving DecidableEq, Repr

/-- The terminal outcome the loop delivers to the caller: either the
completion alert (`...님의 보행 분석이 완료되었습니다!`, identical in every
completion path), or the error alert
`분석 중 오류가 발생했습니다: <msg>` carrying the thrown message. -/
inductive Outcome where
  | success : Outcome
  | errorAlert (msg : String) : Outcome
  deriving DecidableEq, Repr

/-- Component state visible to the caller, plus the recorded side
channels: `gaitData` is the result the loop delivered via `setGaitData`
(`none` while untouched), `outcome` the delivered terminal alert, and
`consoleWarns` counts `console.warn` calls (a console log, not visible to
the user). -/
structure PageView where
  progress : Nat
  message : String
  isAnalyzing : Bool
  gaitData : Option JsVal
  outcome : Option Outcome
  consoleWarns : Nat

/-- The `data` field of one successful status response
(`statusResponse?.data`), as read by the loop: `progress`/`message`/`error`
are accessed with `|| default`, so absent-or-falsy is `none`; `result` is
an arbitrary JavaScript value (`vUndef` when absent). -/
structure StatusData where
  status : String
  progress : Option Nat
  message : Option String
  error : Option String
  result : JsVal

/-- What one tick's status query produced: a thrown network/parse error,
or a response whose `data` field is falsy (`ok none`) or present. -/
inductive TickResponse where
  | netError (msg : String) : TickResponse
  | ok (data : Option StatusData) : TickResponse

/-- Maximum number of polling attempts (line 63 of the source). -/
def maxAttempts : Nat := 60

/-- Message of the timeout error thrown at line 200. -/
def timeoutMsg : String := "분석 시간이 초과되었습니다. 다시 시도해주세요."

/-- Default message of the `failed` branch throw at line 188. -/
def defaultFailMsg : String := "분석 중 오류가 발생했습니다."

/-- Message thrown when a `completed` response has a falsy `result`
(line 184). -/
def noResultMsg : String := "분석 결과를 받을 수 없습니다."

/-- Default on-screen message while a tick carries none (line 74). -/
def defaultTickMsg : String := "분석 중..."

/-- On-screen message set when the loop completes (line 85). -/
def completedMsg : String := "분석이 완료되었습니다!"

/-- The hardcoded fallback result object of lines 118-176, delivered when
a `completed` response's extracted result is not a truthy object. -/
def fallbackGaitData : JsVal :=
  .vObj [
    ("score", .vNum 85),
    ("status", .vStr "분석 완료"),
    ("riskLevel", .vStr "정상 단계"),
    ("indicators", .vArr [
      .vObj [
        ("id", .vStr "stride-time"),
        ("name", .vStr "보폭 시간"),
        ("value", .vStr "분석 완료"),
        ("status", .vStr "normal"),
        ("description", .vStr "한쪽 발이 땅에 닿은 후, 같은 발이 다시 닿을 때까지 걸리는 시간입니다."),
        ("result", .vStr "분석이 완료되었습니다!")],
      .vObj [
        ("id", .vStr "double-support"),
        ("name", .vStr "양발 지지 비율"),
        ("value", .vStr "분석 완료"),
        ("status", .vStr "normal"),
        ("description", .vStr "두 발이 동시에 땅에 닿아 있는 시간의 비율이에요."),
        ("result", .vStr "분석이 완료되었습니다!")],
      .vObj [
        ("id", .vStr "stride-difference"),
        ("name", .vStr "양발 보폭 차이"),
        ("value", .vStr "분석 완료"),
        ("status", .vStr "normal"),
        ("description", .vStr "왼발과 오른발의 걸음 길이 차이입니다."),
        ("result", .vStr "분석이 완료되었습니다!")],
      .vObj [
        ("id", .vStr "walking-speed"),
        ("name", .vStr "평균 보행 속도"),
        ("value", .vStr "분석 완료"),
        ("status", .vStr "normal"),
        ("description", .vStr "단위 시간 동안 이동한 거리입니다."),
        ("result", .vStr "분석이 완료되었습니다!")]]),
    ("diseases", .vArr [
      .vObj [
        ("id", .vStr "parkinson"),
        ("name", .vStr "파킨슨병"),
        ("probability", .vNum (1/10 : ℚ)),
        ("status", .vStr "정상 범위"),
        ("trend", .vStr "stable")],
      .vObj [
        ("id", .vStr "stroke"),
        ("name", .vStr "뇌졸중"),
        ("probability", .vNum (1/20 : ℚ)),
        ("status", .vStr "정상 범위"),
        ("trend", .vStr "stable")]]),
    ("detailedReport", .vObj [
      ("title", .vStr "분석 완료"),
      ("content", .vStr "보행 분석이 완료되었습니다. 자세한 결과는 백엔드 로그를 확인해주세요.")])]

/-- Extraction of the final result from `status.result` (lines 102-107):
when the value looks like a `{success, data}` envelope (both fields
truthy) the `data` field is taken, otherwise the value itself. -/
def extractFinal (v : JsVal) : JsVal :=
  if (v.getField "success").truthy && (v.getField "data").truthy then
    v.getField "data"
  else v

/-- Effect of a caught throw of message `m` (the `catch` block of lines
203-208): `setIsAnalyzing(false)` and the error alert. -/
def failPage (pv : PageView) (m : String) : PageView :=
  { pv with isAnalyzing := false, outcome := some (.errorAlert m) }

/-- The `case 'completed'` branch (lines 81-186): the interval is cleared,
progress is forced to 100; a truthy result is delivered when the extracted
value is a truthy object, otherwise the anomaly goes to `console.warn` and
the hardcoded `fallbackGaitData` is delivered; either way the deferred
success alert fires.  A falsy `result` throws `noResultMsg` into the
catch. -/
def completedCase (lp : Loop) (pv : PageView) (st : StatusData) : Loop × PageView :=
  let lp := { lp with timerActive := false }
  let pv := { pv with progress := 100, message := completedMsg }
  if st.result.truthy then
    let finalResult := extractFinal st.result
    if finalResult.truthy && finalResult.isObjectType then
      (lp, { pv with gaitData := some finalResult, isAnalyzing := false,
                     outcome := some .success })
    else
      (lp, { pv with consoleWarns := pv.consoleWarns + 1,
                     gaitData := some fallbackGaitData, isAnalyzing := false,
                     outcome := some .success })
  else
    (lp, failPage pv noResultMsg)

/-- One invocation of the `setInterval` callback (lines 65-209).  A loop
whose interval was cleared is never invoked again, so it is the identity.
Otherwise `attempts` is incremented first; a thrown status query lands in
the catch immediately; a present `data` updates progress/message verbatim
and dispatches on `status`; non-terminal ticks fall through to the
`attempts >= maxAttempts` timeout check. -/
def pollTick (lp : Loop) (pv : PageView) (r : TickResponse) : Loop × PageView :=
  if lp.timerActive = false then (lp, pv)
  else
    let lp := { lp with attempts := lp.attempts + 1 }
    match r with
    | .netError m => ({ lp with timerActive := false }, failPage pv m)
    | .ok none =>
        if lp.attempts ≥ maxAttempts then
          ({ lp with timerActive := false }, failPage pv timeoutMsg)
        else (lp, pv)
    | .ok (some st) =>
        let pv := { pv with progress := st.progress.getD 0,
                            message := st.message.getD defaultTickMsg }
        if st.status = "completed" then completedCase lp pv st
        else if st.status = "failed" then
          ({ lp with timerActive := false },
           failPage pv (st.error.getD defaultFailMsg))
        else
          if lp.attempts ≥ maxAttempts then
            ({ lp with timerActive := false }, failPage pv timeoutMsg)
          else (lp, pv)

/-- Loop state just after `setInterval` is installed: zero attempts,
interval scheduled. -/
def initLoop : Loop := { attempts := 0, timerActive := true }

/-- Page state just after the diagnosis request succeeded (lines 58-59):
progress 20, the analysis-in-progress message, nothing delivered yet. -/
def initPage : PageView :=
  { progress := 20, message := "랭그래프 분석 중...", isAnalyzing := true,
    gaitData := none, outcome := none, consoleWarns := 0 }

/-- Running the polling loop over a list of tick responses. -/
def runPoll (rs : List TickResponse) : Loop × PageView :=
  rs.foldl (fun s r => pollTick s.1 s.2 r) (initLoop, initPage)

/-- A non-terminal (`processing`-style) tick response with the given
reported progress. -/
def procResp (p : Nat) : TickResponse :=
  .ok (some { status := "processing", progress := some p, message := none,
              error := none, result := .vUndef })

/-- A server-reported failure response carrying error message `e`. -/
def failResp (e : String) : TickResponse :=
  .ok (some { status := "failed", progress := some 0, message := none,
              error := some e, result := .vUndef })

/-- A `completed` response with the given `result` payload. -/
def doneResp (v : JsVal) : TickResponse :=
  .ok (some { status := "completed", progress := some 100, message := none,
              error := none, result := v })

/-! ### Helper lemmas about single ticks -/

/-- A cleared loop is never ticked again. -/
theorem pollTick_inactive (lp : Loop) (pv : PageView) (r : TickResponse)
    (h : lp.timerActive = false) : pollTick lp pv r = (lp, pv) := by
  simp [pollTick, h]

/-- A non-terminal tick before the deadline increments `attempts`, copies
the reported progress/message into the page verbatim, and keeps the loop
running. -/
theorem pollTick_nonterm (lp : Loop) (pv : PageView) (st : StatusData)
    (hact : lp.timerActive = true)
    (h1 : st.status ≠ "completed") (h2 : st.status ≠ "failed")
    (hlt : lp.attempts + 1 < maxAttempts) :
    pollTick lp pv (.ok (some st)) =
      ({ lp with attempts := lp.attempts + 1 },
       { pv with progress := st.progress.getD 0,
                 message := st.message.getD defaultTickMsg }) := by
  have hlt2 : ¬ (lp.attempts + 1 ≥ maxAttempts) := by omega
  simp [pollTick, hact, h1, h2, hlt2]

/-- A non-terminal tick that exhausts the attempt budget clears the
interval and lands the timeout throw in the catch block. -/
theorem pollTick_nonterm_timeout (lp : Loop) (pv : PageView) (st : StatusData)
    (hact : lp.timerActive = true)
    (h1 : st.status ≠ "completed") (h2 : st.status ≠ "failed")
    (hge : lp.attempts + 1 ≥ maxAttempts) :
    pollTick lp pv (.ok (some st)) =
      ({ lp with attempts := lp.attempts + 1, timerActive := false },
       { pv with progress := st.progress.getD 0,
                 message := st.message.getD defaultTickMsg,
                 isAnalyzing := false,
                 outcome := some (.errorAlert timeoutMsg) }) := by
  simp [pollTick, hact, h1, h2, hge, failPage]

/-- A response is non-terminal when it is a successful status query whose
status is neither `completed` nor `failed`. -/
def NonTerminalResp (r : TickResponse) : Prop :=
  ∃ st : StatusData, r = .ok (some st) ∧ st.status ≠ "completed" ∧ st.status ≠ "failed"

/-- Running a live loop over non-terminal responses that do not exhaust
the budget keeps it live, advances `attempts` by the number of ticks, and
delivers no outcome. -/
theorem foldl_nonterm :
    ∀ rs : List TickResponse, (∀ r ∈ rs, NonTerminalResp r) →
    ∀ lp pv, lp.timerActive = true → lp.attempts + rs.length < maxAttempts →
      (rs.foldl (fun s r => pollTick s.1 s.2 r) (lp, pv)).1.timerActive = true ∧
      (rs.foldl (fun s r => pollTick s.1 s.2 r) (lp, pv)).1.attempts
        = lp.attempts + rs.length ∧
      (rs.foldl (fun s r => pollTick s.1 s.2 r) (lp, pv)).2.outcome = pv.outcome := by
  intro rs
  induction rs with
  | nil => intro _ lp pv hact _; exact ⟨hact, by simp, rfl⟩
  | cons r rs ih =>
      intro hnt lp pv hact hlen
      obtain ⟨st, hr, h1, h2⟩ := hnt r (List.mem_cons_self r rs)
      have hstep := pollTick_nonterm lp pv st hact h1 h2 (by simp at hlen; omega)
      rw [List.foldl_cons]
      simp only [hr, hstep]
      have hrec := ih (fun x hx => hnt x (List.mem_cons_of_mem r hx))
        { lp with attempts := lp.attempts + 1 }
        { pv with progress := st.progress.getD 0,
                  message := st.message.getD defaultTickMsg }
        hact (by simp at hlen ⊢; omega)
      refine ⟨hrec.1, ?_, hrec.2.2⟩
      rw [hrec.2.1]
      simp
      omega

/-! ### Claim C1 -/

/-- Claim C1 as stated is false: on the very first tick whose status query
throws (attempt budget 1 of 60, far from exhausted), the catch block
clears the interval and delivers the error alert immediately, instead of
treating the tick as inconclusive and continuing. -/
theorem C1_counterexample :
    initLoop.attempts + 1 < maxAttempts ∧
    (pollTick initLoop initPage (.netError "Network Error")).1.timerActive = false ∧
    (pollTick initLoop initPage (.netError "Network Error")).2.outcome
      = some (.errorAlert "Network Error") := by
  refine ⟨by decide, rfl, rfl⟩

/-- Claim C1 (amended): on any tick whose status query fails with a
network or parse error, the loop stops immediately — the catch block
clears the interval, ends the analyzing state and delivers the error
alert to the caller — even when the attempt budget is not exhausted. -/
theorem C1_amended (lp : Loop) (pv : PageView) (m : String)
    (hact : lp.timerActive = true) (_hbudget : lp.attempts + 1 < maxAttempts) :
    (pollTick lp pv (.netError m)).1.timerActive = false ∧
    (pollTick lp pv (.netError m)).2.isAnalyzing = false ∧
    (pollTick lp pv (.netError m)).2.outcome = some (.errorAlert m) := by
  simp [pollTick, hact, failPage]

/-- Witness for C1 (amended) at the freshly started loop and a concrete
network error. -/
theorem C1_witness :
    (initLoop.timerActive = true ∧ initLoop.attempts + 1 < maxAttempts) ∧
    (pollTick initLoop initPage (.netError "Network Error")).1.timerActive = false ∧
    (pollTick initLoop initPage (.netError "Network Error")).2.isAnalyzing = false ∧
    (pollTick initLoop initPage (.netError "Network Error")).2.outcome
      = some (.errorAlert "Network Error") :=
  ⟨⟨rfl, by decide⟩, C1_amended initLoop initPage "Network Error" rfl (by decide)⟩

/-! ### Claim C2 -/

/-- A well-formed completed result used for comparison. -/
def demoResult : JsVal := .vObj [("score", .vNum 77)]

/-- Claim C2 as stated is false: when a `completed` tick carries the
malformed result `"oops"`, the monitor indeed stops and substitutes the
hardcoded fallback, but the caller-visible outcome is exactly the outcome
of a genuinely well-formed success — the same success alert — and the
delivered fallback carries no warning field; the only signal is a
`console.warn`.  There is no distinguishable warning flag. -/
theorem C2_counterexample :
    (runPoll [doneResp (.vStr "oops")]).2.outcome
      = (runPoll [doneResp demoResult]).2.outcome ∧
    (runPoll [doneResp (.vStr "oops")]).2.outcome = some Outcome.success ∧
    (runPoll [doneResp (.vStr "oops")]).2.gaitData = some fallbackGaitData ∧
    fallbackGaitData.getField "warning" = .vUndef ∧
    fallbackGaitData.getField "status" = .vStr "분석 완료" ∧
    (runPoll [doneResp (.vStr "oops")]).2.consoleWarns = 1 :=
  ⟨rfl, rfl, rfl, rfl, rfl, rfl⟩

/-- Claim C2 (amended): a terminal `completed` tick whose result payload
is present but not a well-formed object does not crash the monitor, stops
polling, and delivers the hardcoded best-effort fallback result; but the
anomaly is reported only through `console.warn` — the caller receives the
ordinary success outcome with no distinguishable warning flag. -/
theorem C2_amended (lp : Loop) (pv : PageView) (st : StatusData)
    (hact : lp.timerActive = true) (hdone : st.status = "completed")
    (hres : st.result.truthy = true)
    (hmal : ((extractFinal st.result).truthy
              && (extractFinal st.result).isObjectType) = false) :
    (pollTick lp pv (.ok (some st))).1.timerActive = false ∧
    (pollTick lp pv (.ok (some st))).2.gaitData = some fallbackGaitData ∧
    (pollTick lp pv (.ok (some st))).2.outcome = some .success ∧
    (pollTick lp pv (.ok (some st))).2.consoleWarns = pv.consoleWarns + 1 := by
  simp only [pollTick, hact]
  rw [if_neg (by simp)]
  simp only [hdone, if_pos rfl, completedCase, hres, if_pos rfl, hmal]
  simp

/-- Witness for C2 (amended) at a concrete malformed completed tick. -/
theorem C2_witness :
    ((JsVal.vStr "oops").truthy = true ∧
      ((extractFinal (.vStr "oops")).truthy
        && (extractFinal (.vStr "oops")).isObjectType) = false) ∧
    (pollTick initLoop initPage
        (.ok (some ⟨"completed", some 100, none, none, .vStr "oops"⟩))).1.timerActive = false ∧
    (pollTick initLoop initPage
        (.ok (some ⟨"completed", some 100, none, none, .vStr "oops"⟩))).2.gaitData
      = some fallbackGaitData ∧
    (pollTick initLoop initPage
        (.ok (some ⟨"completed", some 100, none, none, .vStr "oops"⟩))).2.outcome
      = some .success ∧
    (pollTick initLoop initPage
        (.ok (some ⟨"completed", some 100, none, none, .vStr "oops"⟩))).2.consoleWarns
      = initPage.consoleWarns + 1 :=
  ⟨⟨rfl, rfl⟩,
    C2_amended initLoop initPage ⟨"completed", some 100, none, none, .vStr "oops"⟩
      rfl rfl rfl rfl⟩

/-! ### Claim C4 -/

/-- Claim C4 as stated is false in its distinctness half: a run of 60
`processing` ticks self-cancels and delivers the timeout error alert, but
that outcome is not a distinct `TimedOut` kind — it is the same generic
error-alert channel used for server-reported failures, and a server
failure whose error text equals the timeout text delivers the identical
outcome. -/
theorem C4_counterexample :
    (runPoll (List.replicate maxAttempts (procResp 50))).2.outcome
      = (runPoll [failResp timeoutMsg]).2.outcome ∧
    (runPoll (List.replicate maxAttempts (procResp 50))).2.outcome
      = some (.errorAlert timeoutMsg) :=
  ⟨rfl, rfl⟩

/-- Claim C4 (amended): when all 60 ticks return a non-terminal status the
loop self-cancels after tick 60 and delivers the generic error alert
carrying the fixed timeout message; this message differs from the default
failure message, but the outcome kind is the same error alert used for
server-reported failures, so the two runs are distinguishable only by
message text. -/
theorem C4_amended (rs : List TickResponse) (hlen : rs.length = maxAttempts)
    (hnt : ∀ r ∈ rs, NonTerminalResp r) :
    (runPoll rs).1.timerActive = false ∧
    (runPoll rs).2.outcome = some (.errorAlert timeoutMsg) ∧
    Outcome.errorAlert timeoutMsg ≠ Outcome.errorAlert defaultFailMsg := by
  have hne : rs ≠ [] := by intro h; rw [h] at hlen; simp [maxAttempts] at hlen
  have hsplit : rs.dropLast ++ [rs.getLast hne] = rs := List.dropLast_append_getLast hne
  obtain ⟨st, hlast, h1, h2⟩ := hnt (rs.getLast hne) (List.getLast_mem hne)
  have hdlen : rs.dropLast.length = maxAttempts - 1 := by
    rw [List.length_dropLast, hlen]
  have hrun := foldl_nonterm rs.dropLast
    (fun x hx => hnt x (List.dropLast_subset rs hx)) initLoop initPage rfl
    (by rw [hdlen]; decide)
  have hfin : runPoll rs
      = pollTick (rs.dropLast.foldl (fun s r => pollTick s.1 s.2 r) (initLoop, initPage)).1
          (rs.dropLast.foldl (fun s r => pollTick s.1 s.2 r) (initLoop, initPage)).2
          (rs.getLast hne) := by
    unfold runPoll
    conv_lhs => rw [← hsplit]
    rw [List.foldl_append]
    simp
  have hlaststep := pollTick_nonterm_timeout
    (rs.dropLast.foldl (fun s r => pollTick s.1 s.2 r) (initLoop, initPage)).1
    (rs.dropLast.foldl (fun s r => pollTick s.1 s.2 r) (initLoop, initPage)).2
    st hrun.1 h1 h2 (by rw [hrun.2.1, hdlen]; decide)
  rw [hfin, hlast, hlaststep]
  exact ⟨rfl, rfl, by decide⟩

/-- Witness for C4 (amended): a concrete run of 60 `processing` ticks. -/
theorem C4_witness :
    (runPoll (List.replicate maxAttempts (procResp 50))).1.timerActive = false ∧
    (runPoll (List.replicate maxAttempts (procResp 50))).2.outcome
      = some (.errorAlert timeoutMsg) := by
  have h := C4_amended (List.replicate maxAttempts (procResp 50))
    (by simp)
    (by
      intro r hr
      rw [List.eq_of_mem_replicate hr]
      exact ⟨_, rfl, by decide, by decide⟩)
  exact ⟨h.1, h.2.1⟩

/-! ### Claim C5 -/

/-- Claim C5 as stated is false: the page copies each server-reported
progress value verbatim, so a run whose server reports 50 and then 30
displays 50 and then 30 — the displayed progress decreases across two
successive successful non-terminal ticks. -/
theorem C5_counterexample :
    (runPoll [procResp 50]).2.progress = 50 ∧
    (runPoll [procResp 50, procResp 30]).2.progress = 30 ∧
    (30 : Nat) < 50 := by
  refine ⟨rfl, rfl, by decide⟩

/-- Claim C5 (amended): the displayed progress after a successful
non-terminal tick is exactly the server-reported value (`progress || 0`);
consequently it is non-decreasing across two successive successful
non-terminal ticks exactly when the server-reported values are
non-decreasing — the client enforces no monotonicity of its own. -/
theorem C5_amended (lp : Loop) (pv : PageView) (st₁ st₂ : StatusData)
    (h1c : st₁.status ≠ "completed") (h1f : st₁.status ≠ "failed")
    (h2c : st₂.status ≠ "completed") (h2f : st₂.status ≠ "failed")
    (hmono : st₁.progress.getD 0 ≤ st₂.progress.getD 0) :
    (pollTick lp pv (.ok (some st₁))).2.progress ≤
      (pollTick (pollTick lp pv (.ok (some st₁))).1
        (pollTick lp pv (.ok (some st₁))).2 (.ok (some st₂))).2.progress := by
  cases hact : lp.timerActive with
  | false =>
      have e1 := pollTick_inactive lp pv (.ok (some st₁)) hact
      have e2 := pollTick_inactive lp pv (.ok (some st₂)) hact
      simp [e1, e2]
  | true =>
      by_cases hto : lp.attempts + 1 ≥ maxAttempts
      · have e1 := pollTick_nonterm_timeout lp pv st₁ hact h1c h1f hto
        rw [e1]
        have e2 := pollTick_inactive
          { lp with attempts := lp.attempts + 1, timerActive := false }
          { pv with progress := st₁.progress.getD 0,
                    message := st₁.message.getD defaultTickMsg,
                    isAnalyzing := false,
                    outcome := some (.errorAlert timeoutMsg) }
          (.ok (some st₂)) rfl
        simp [e2]
      · have e1 := pollTick_nonterm lp pv st₁ hact h1c h1f (by omega)
        rw [e1]
        dsimp only
        by_cases hto₂ : lp.attempts + 1 + 1 ≥ maxAttempts
        · have e2 := pollTick_nonterm_timeout
            { lp with attempts := lp.attempts + 1 }
            { pv with progress := st₁.progress.getD 0,
                      message := st₁.message.getD defaultTickMsg }
            st₂ hact h2c h2f hto₂
          rw [e2]
          exact hmono
        · have e2 := pollTick_nonterm
            { lp with attempts := lp.attempts + 1 }
            { pv with progress := st₁.progress.getD 0,
                      message := st₁.message.getD defaultTickMsg }
            st₂ hact h2c h2f (by simp; omega)
          rw [e2]
          exact hmono

/-- Witness for C5 (amended): two concrete successive `processing` ticks
with non-decreasing server-reported progress. -/
theorem C5_witness :
    ((30 : Nat) ≤ 40) ∧
    (pollTick initLoop initPage (procResp 30)).2.progress ≤
      (pollTick (pollTick initLoop initPage (procResp 30)).1
        (pollTick initLoop initPage (procResp 30)).2 (procResp 40)).2.progress :=
  ⟨by decide,
    C5_amended initLoop initPage
      { status := "processing", progress := some 30, message := none,
        error := none, result := .vUndef }
      { status := "processing", progress := some 40, message := none,
        error := none, result := .vUndef }
      (by decide) (by decide) (by decide) (by decide) (by decide)⟩

/-! ### Claim C3: concurrent polling loops -/

/-- The page with its set of live polling loops.  `handleStartAnalysis`
keeps its interval handle in a local constant (`checkResult`, line 65) and
never clears a previous invocation's interval, so several loops can be in
flight at once; all of them write the same component state. -/
structure PollSystem where
  loops : List Loop
  page : PageView

/-- Starting a new analysis (the synchronous part of `handleStartAnalysis`
up to installing the interval, lines 23-65): appends a fresh loop without
touching any existing one, and resets the page to the in-progress view. -/
def startAnalysis (sys : PollSystem) : PollSystem :=
  { loops := sys.loops ++ [initLoop],
    page := { sys.page with
              isAnalyzing := true,
              progress := 20,
              message := "랭그래프 분석 중...",
              outcome := none } }

/-- One tick of the `i`-th live loop against the shared page state. -/
def sysTick (sys : PollSystem) (i : Nat) (r : TickResponse) : PollSystem :=
  match sys.loops[i]? with
  | none => sys
  | some lp =>
      { loops := sys.loops.set i (pollTick lp sys.page r).1,
        page := (pollTick lp sys.page r).2 }

/-- A system with one in-flight polling loop (job A). -/
def sysA : PollSystem := { loops := [initLoop], page := initPage }

/-- Claim C3 as stated is false: starting a new job while job A's loop is
in flight leaves A's interval active (it is never cleared), and A's next
tick still writes the shared displayed state — here it overwrites the new
job's progress 20 with 77. -/
theorem C3_counterexample :
    ((startAnalysis sysA).loops[0]?.map Loop.timerActive) = some true ∧
    (startAnalysis sysA).page.progress = 20 ∧
    (sysTick (startAnalysis sysA) 0 (procResp 77)).page.progress = 77 := by
  refine ⟨rfl, rfl, rfl⟩

/-- Claim C3 (amended): starting a new polling job does not invalidate any
previous loop's timer — the previous loops are kept unchanged — and a
subsequent tick of a still-active superseded loop updates the displayed
progress exactly as a current tick would; the only mitigation in the
source is that the start button is disabled while `isAnalyzing` is true. -/
theorem C3_amended :
    (∀ sys : PollSystem, (startAnalysis sys).loops.take sys.loops.length = sys.loops) ∧
    (∀ (sys : PollSystem) (i : Nat) (lp : Loop) (p : Nat),
      sys.loops[i]? = some lp → lp.timerActive = true →
      (sysTick sys i (procResp p)).page.progress = p) := by
  constructor
  · intro sys
    simp [startAnalysis]
  · intro sys i lp p hl hact
    simp only [sysTick, hl, procResp]
    have hs1 : ("processing" : String) ≠ "completed" := by decide
    have hs2 : ("processing" : String) ≠ "failed" := by decide
    by_cases hto : lp.attempts + 1 ≥ maxAttempts
    · rw [pollTick_nonterm_timeout lp sys.page
        { status := "processing", progress := some p, message := none,
          error := none, result := .vUndef } hact hs1 hs2 hto]
      rfl
    · rw [pollTick_nonterm lp sys.page
        { status := "processing", progress := some p, message := none,
          error := none, result := .vUndef } hact hs1 hs2 (by omega)]
      rfl

/-- Witness for C3 (amended): the superseded loop of `sysA` still drives
the display after a new job starts. -/
theorem C3_witness :
    (startAnalysis sysA).loops.take sysA.loops.length = sysA.loops ∧
    (sysTick sysA 0 (procResp 77)).page.progress = 77 :=
  ⟨C3_amended.1 sysA, C3_amended.2 sysA 0 initLoop 77 rfl rfl⟩

end Gait

namespace FallMon

/-! ## The realtime fall-alert monitor

Shallow embedding of `useFallAlert` (`src/front/src/hooks/useFallAlert.js`).
The hook is event-driven: the React effect body (lines 27-212, with its
cleanup at 192-211), the Supabase `subscribe` status callback (101-183),
the `postgres_changes` INSERT payload handler (84-99), the scheduled
reconnect timeout (144-150) with its inner 1-second reactivation timeout,
the handlers' 2-second cooldown timeouts, and the two user-facing handlers
(214-252).  Each of those callbacks becomes one event of a step function
over the hook state; pending timeouts are recorded in the state and fire
as their own events. -/

/-- The two Vite environment variables read at lines 44-45; `none` models
an absent variable. -/
structure SupabaseConfig where
  url : Option String
  anonKey : Option String
  deriving DecidableEq, Repr

/-- JavaScript falsiness of an environment variable: absent or the empty
string. -/
def envFalsy : Option String → Bool
  | none => true
  | some s => s == ""

/-- Whether `pat` is a prefix of the character list `s`. -/
def charsPrefix : List Char → List Char → Bool
  | [], _ => true
  | _ :: _, [] => false
  | p :: ps, c :: cs => p == c && charsPrefix ps cs

/-- Whether the character list `s` contains `pat` as a contiguous
sublist. -/
def charsContains (pat : List Char) : List Char → Bool
  | [] => charsPrefix pat []
  | c :: cs => charsPrefix pat (c :: cs) || charsContains pat cs

/-- Model of `s.includes(pat)` from JavaScript (substring test),
executable by structural recursion over the character lists. -/
def includesSub (s pat : String) : Bool := charsContains pat.data s.data

/-- The security check of line 55: the configured key contains the
substring `service_role`. -/
def keyHasServiceRole (cfg : SupabaseConfig) : Bool :=
  match cfg.anonKey with
  | none => false
  | some k => includesSub k "service_role"

/-- A configuration rejected by the guards of lines 47-60: a missing or
empty URL or key, or a key containing `service_role`. -/
def badConfig (cfg : SupabaseConfig) : Prop :=
  envFalsy cfg.url = true ∨ envFalsy cfg.anonKey = true ∨ keyHasServiceRole cfg = true

/-- `maxReconnectAttempts` of line 20. -/
def maxReconnectAttempts : Nat := 3

/-- The hook state: the five `useState` values (`isFallDetected`,
`isSubscriptionActive`, `connectionStatus`, `reconnectAttempts`; the
constant `maxReconnectAttempts` is a definition above), the
`isReconnectingRef` flag, and the recorded pending effects: the scheduled
reconnect timeout (carrying the `nextAttempt` it will install), the inner
1-second reactivation timeout, the handlers' 2-second cooldown timeout,
and whether a realtime channel is currently open (`channelRef`). -/
structure AlertState where
  isFallDetected : Bool
  isSubscriptionActive : Bool
  connectionStatus : String
  reconnectAttempts : Nat
  isReconnecting : Bool
  reconnectTimer : Option Nat
  reactivatePending : Bool
  cooldownPending : Bool
  channelOpen : Bool
  deriving DecidableEq, Repr

/-- The hook's initial state (lines 16-25): no alert, subscription active,
status `연결 중...`, zero reconnect attempts, nothing pending, no channel. -/
def initAlertState : AlertState :=
  { isFallDetected := false, isSubscriptionActive := true,
    connectionStatus := "연결 중...", reconnectAttempts := 0,
    isReconnecting := false, reconnectTimer := none,
    reactivatePending := false, cooldownPending := false, channelOpen := false }

/-- The effect cleanup (lines 192-211): clears the reconnect timeout,
resets the reconnecting flag, sets the status and removes the channel. -/
def effectCleanup (s : AlertState) : AlertState :=
  { s with reconnectTimer := none, isReconnecting := false,
           connectionStatus := "연결 해제됨", channelOpen := false }

/-- The effect body (lines 27-189), flattened to its net state effect: the
inactive guard (28), the reconnecting guard (35), the missing-variable
guard (47), the `service_role` guard (55), and otherwise a freshly opened
channel with the in-progress status of line 41. -/
def effectBody (cfg : SupabaseConfig) (s : AlertState) : AlertState :=
  if s.isSubscriptionActive = false then { s with connectionStatus := "구독 비활성화" }
  else if s.isReconnecting = true then s
  else if (envFalsy cfg.url || envFalsy cfg.anonKey) = true then
    { s with connectionStatus := "환경변수 오류" }
  else if keyHasServiceRole cfg = true then
    { s with connectionStatus := "보안 오류" }
  else
    { s with connectionStatus := "연결 중...", channelOpen := true }

/-- The `CHANNEL_ERROR`/`TIMED_OUT` branch of the subscribe callback
(lines 126-159): schedule a delayed reconnect only while
`reconnectAttempts < maxReconnectAttempts` and not already reconnecting;
otherwise report `연결 실패` and schedule nothing. -/
def errorRetry (s : AlertState) : AlertState :=
  if s.reconnectAttempts < maxReconnectAttempts ∧ s.isReconnecting = false then
    { s with isReconnecting := true,
             connectionStatus := "재연결 대기 중... (" ++ toString (s.reconnectAttempts + 1)
               ++ "/" ++ toString maxReconnectAttempts ++ ")",
             reconnectTimer := some (s.reconnectAttempts + 1) }
  else
    { s with connectionStatus := "연결 실패", isReconnecting := false }

/-- The `CLOSED` branch of the subscribe callback (lines 160-180). -/
def closedRetry (s : AlertState) : AlertState :=
  if s.isSubscriptionActive = true ∧ s.isReconnecting = false
      ∧ s.reconnectAttempts < maxReconnectAttempts then
    { s with isReconnecting := true,
             connectionStatus := "재연결 준비 중... (" ++ toString (s.reconnectAttempts + 1)
               ++ "/" ++ toString maxReconnectAttempts ++ ")",
             reconnectTimer := some (s.reconnectAttempts + 1) }
  else
    { s with connectionStatus := "연결 종료", isReconnecting := false }

/-- `handleAlertCancel` (lines 214-225): unconditionally hides the alert,
resets the reconnect counter and flag, and schedules the 2-second
re-activation cooldown. -/
def handleAlertCancel (s : AlertState) : AlertState :=
  { s with isFallDetected := false, reconnectAttempts := 0,
           isReconnecting := false, cooldownPending := true }

/-- `handleEmergencyCall` (lines 227-252): besides the `tel:` side effect
(not part of the hook state), the very same state changes as
`handleAlertCancel`. -/
def handleEmergencyCall (s : AlertState) : AlertState :=
  { s with isFallDetected := false, reconnectAttempts := 0,
           isReconnecting := false, cooldownPending := true }

/-- The events that can drive the hook: an effect (re-)run, the subscribe
callback outcomes, an INSERT payload, the pending timeouts firing, and the
two user handlers. -/
inductive AlertEvent where
  | effectRun : AlertEvent
  | subscribed : AlertEvent
  | subErr (msg : String) : AlertEvent
  | channelError : AlertEvent
  | timedOut : AlertEvent
  | closed : AlertEvent
  | fallInsert : AlertEvent
  | timerFire : AlertEvent
  | reactivateFire : AlertEvent
  | cooldownFire : AlertEvent
  | alertCancel : AlertEvent
  | emergencyCall : AlertEvent
  deriving DecidableEq, Repr

/-- One event of the hook.  Channel callbacks fire only while a channel is
open; an effect re-run performs the previous effect's cleanup first; the
reconnect timeout (lines 144-150) installs its recorded `nextAttempt`,
suspends the subscription and leaves the 1-second reactivation pending. -/
def alertStep (cfg : SupabaseConfig) (s : AlertState) (e : AlertEvent) : AlertState :=
  match e with
  | .effectRun => effectBody cfg (effectCleanup s)
  | .subscribed =>
      if s.channelOpen = true then
        { s with connectionStatus := "SUBSCRIBED", reconnectAttempts := 0,
                 isReconnecting := false, reconnectTimer := none }
      else s
  | .subErr m =>
      if s.channelOpen = true then { s with connectionStatus := "에러: " ++ m } else s
  | .channelError => if s.channelOpen = true then errorRetry s else s
  | .timedOut => if s.channelOpen = true then errorRetry s else s
  | .closed => if s.channelOpen = true then closedRetry s else s
  | .fallInsert =>
      if s.channelOpen = true then
        { s with isFallDetected := true, isSubscriptionActive := false }
      else s
  | .timerFire =>
      match s.reconnectTimer with
      | some n => { s with reconnectAttempts := n, reconnectTimer := none,
                           isSubscriptionActive := false, reactivatePending := true }
      | none => s
  | .reactivateFire =>
      if s.reactivatePending = true then
        { s with isSubscriptionActive := true, reactivatePending := false }
      else s
  | .cooldownFire =>
      if s.cooldownPending = true then
        { s with isSubscriptionActive := true, cooldownPending := false }
      else s
  | .alertCancel => handleAlertCancel s
  | .emergencyCall => handleEmergencyCall s

/-- The states the hook can reach from its initial state. -/
inductive Reachable (cfg : SupabaseConfig) : AlertState → Prop where
  | init : Reachable cfg initAlertState
  | next {s : AlertState} (e : AlertEvent) :
      Reachable cfg s → Reachable cfg (alertStep cfg s e)

/-- Running the hook over a list of events. -/
def runAlert (cfg : SupabaseConfig) (es : List AlertEvent) : AlertState :=
  es.foldl (alertStep cfg) initAlertState

/-- Every run of the hook ends in a reachable state. -/
theorem runAlert_reachable (cfg : SupabaseConfig) (es : List AlertEvent) :
    Reachable cfg (runAlert cfg es) := by
  suffices hgen : ∀ (l : List AlertEvent) (s : AlertState), Reachable cfg s →
      Reachable cfg (l.foldl (alertStep cfg) s) from
    hgen es initAlertState Reachable.init
  intro l
  induction l with
  | nil => intro s hs; exact hs
  | cons e l ih => intro s hs; exact ih (alertStep cfg s e) (Reachable.next e hs)

/-- The reconnect-counter invariant: the counter never exceeds
`maxReconnectAttempts`, a pending reconnect timeout never installs more
than `maxReconnectAttempts`, and at the cap no reconnect timeout is
pending. -/
def AlertInv (s : AlertState) : Prop :=
  s.reconnectAttempts ≤ maxReconnectAttempts ∧
  (∀ n, s.reconnectTimer = some n → n ≤ maxReconnectAttempts) ∧
  (s.reconnectAttempts = maxReconnectAttempts → s.reconnectTimer = none)

/-- The effect body never touches the reconnect counter. -/
theorem effectBody_attempts (cfg : SupabaseConfig) (s : AlertState) :
    (effectBody cfg s).reconnectAttempts = s.reconnectAttempts := by
  unfold effectBody
  split_ifs <;> rfl

/-- The effect body never touches the reconnect timeout. -/
theorem effectBody_timer (cfg : SupabaseConfig) (s : AlertState) :
    (effectBody cfg s).reconnectTimer = s.reconnectTimer := by
  unfold effectBody
  split_ifs <;> rfl

/-- Every event preserves the reconnect-counter invariant. -/
theorem alertStep_inv (cfg : SupabaseConfig) (s : AlertState) (e : AlertEvent)
    (h : AlertInv s) : AlertInv (alertStep cfg s e) := by
  obtain ⟨h1, h2, h3⟩ := h
  cases e with
  | effectRun =>
      refine ⟨?_, ?_, ?_⟩
      · rw [show alertStep cfg s .effectRun = effectBody cfg (effectCleanup s) from rfl,
          effectBody_attempts]
        exact h1
      · intro n hn
        rw [show alertStep cfg s .effectRun = effectBody cfg (effectCleanup s) from rfl,
          effectBody_timer] at hn
        simp [effectCleanup] at hn
      · intro _
        rw [show alertStep cfg s .effectRun = effectBody cfg (effectCleanup s) from rfl,
          effectBody_timer]
        rfl
  | subscribed =>
      simp only [alertStep]
      split_ifs with hc
      · exact ⟨by simp [maxReconnectAttempts], by intro n hn; simp at hn, by intro _; rfl⟩
      · exact ⟨h1, h2, h3⟩
  | subErr m =>
      simp only [alertStep]
      split_ifs with hc
      · exact ⟨h1, h2, h3⟩
      · exact ⟨h1, h2, h3⟩
  | channelError =>
      simp only [alertStep]
      split_ifs with hc
      · unfold errorRetry
        split_ifs with hg
        · refine ⟨h1, ?_, ?_⟩
          · intro n hn
            simp at hn
            omega
          · intro hmax
            simp at hmax
            exact absurd hmax (by omega)
        · exact ⟨h1, h2, h3⟩
      · exact ⟨h1, h2, h3⟩
  | timedOut =>
      simp only [alertStep]
      split_ifs with hc
      · unfold errorRetry
        split_ifs with hg
        · refine ⟨h1, ?_, ?_⟩
          · intro n hn
            simp at hn
            omega
          · intro hmax
            simp at hmax
            exact absurd hmax (by omega)
        · exact ⟨h1, h2, h3⟩
      · exact ⟨h1, h2, h3⟩
  | closed =>
      simp only [alertStep]
      split_ifs with hc
      · unfold closedRetry
        split_ifs with hg
        · refine ⟨h1, ?_, ?_⟩
          · intro n hn
            simp at hn
            omega
          · intro hmax
            simp at hmax
            exact absurd hmax (by omega)
        · exact ⟨h1, h2, h3⟩
      · exact ⟨h1, h2, h3⟩
  | fallInsert =>
      simp only [alertStep]
      split_ifs with hc
      · exact ⟨h1, h2, h3⟩
      · exact ⟨h1, h2, h3⟩
  | timerFire =>
      cases ht : s.reconnectTimer with
      | none => simp only [alertStep, ht]; exact ⟨h1, h2, h3⟩
      | some n =>
          simp only [alertStep, ht]
          exact ⟨h2 n ht, by intro k hk; simp at hk, by intro _; rfl⟩
  | reactivateFire =>
      simp only [alertStep]
      split_ifs with hc
      · exact ⟨h1, h2, h3⟩
      · exact ⟨h1, h2, h3⟩
  | cooldownFire =>
      simp only [alertStep]
      split_ifs with hc
      · exact ⟨h1, h2, h3⟩
      · exact ⟨h1, h2, h3⟩
  | alertCancel =>
      exact ⟨by simp [alertStep, handleAlertCancel, maxReconnectAttempts],
        by intro n hn; exact h2 n hn,
        by intro hmax; simp [alertStep, handleAlertCancel, maxReconnectAttempts] at hmax⟩
  | emergencyCall =>
      exact ⟨by simp [alertStep, handleEmergencyCall, maxReconnectAttempts],
        by intro n hn; exact h2 n hn,
        by intro hmax; simp [alertStep, handleEmergencyCall, maxReconnectAttempts] at hmax⟩

/-- Every reachable state satisfies the reconnect-counter invariant. -/
theorem reachable_inv (cfg : SupabaseConfig) {s : AlertState}
    (h : Reachable cfg s) : AlertInv s := by
  induction h with
  | init =>
      exact ⟨by simp [initAlertState, maxReconnectAttempts],
        by intro n hn; simp [initAlertState] at hn, by intro _; rfl⟩
  | next e _ ih => exact alertStep_inv cfg _ e ih

/-- After event `e` in state `s`, no reconnect timeout is pending, the
effect dependencies (`isSubscriptionActive`, `reconnectAttempts`) and the
other pending timeouts are unchanged — so no automatic subscription
attempt is scheduled — and, when a channel was open, the status reports
`연결 실패`. -/
def NoAutoRetry (cfg : SupabaseConfig) (s : AlertState) (e : AlertEvent) : Prop :=
  (alertStep cfg s e).reconnectTimer = none ∧
  (alertStep cfg s e).reconnectAttempts = s.reconnectAttempts ∧
  (alertStep cfg s e).isSubscriptionActive = s.isSubscriptionActive ∧
  (alertStep cfg s e).reactivatePending = s.reactivatePending ∧
  (alertStep cfg s e).cooldownPending = s.cooldownPending ∧
  (s.channelOpen = true → (alertStep cfg s e).connectionStatus = "연결 실패")

/-! ### Claim C6 -/

/-- Claim C6: in every reachable state of the monitor the reconnect
counter is at most `maxReconnectAttempts = 3`, and at the cap a further
channel error or timeout schedules no reconnect timeout, leaves the
effect dependencies and the pending timeouts unchanged (so no automatic
subscription attempt can follow), and reports the `연결 실패` failure
status.  Only the manual handlers reset the counter. -/
theorem C6_invariant (cfg : SupabaseConfig) (s : AlertState) (h : Reachable cfg s) :
    s.reconnectAttempts ≤ maxReconnectAttempts ∧
    (s.reconnectAttempts = maxReconnectAttempts →
      NoAutoRetry cfg s .channelError ∧ NoAutoRetry cfg s .timedOut) := by
  obtain ⟨h1, h2, h3⟩ := reachable_inv cfg h
  refine ⟨h1, fun hmax => ⟨?_, ?_⟩⟩
  all_goals
    unfold NoAutoRetry
    simp only [alertStep]
    split_ifs with hc
  case pos | pos =>
    unfold errorRetry
    rw [if_neg (by rintro ⟨hlt, -⟩; omega)]
    exact ⟨h3 hmax, rfl, rfl, rfl, rfl, fun _ => rfl⟩
  case neg | neg =>
    exact ⟨h3 hmax, rfl, rfl, rfl, rfl, fun hopen => absurd hopen hc⟩

/-- A well-configured client for exercising the monitor. -/
def demoCfg : SupabaseConfig :=
  { url := some "https://example.supabase.co", anonKey := some "anon-key-123" }

/-- Three failed connection attempts: each opens a channel, fails, and
lets the scheduled reconnect fire. -/
def demoEvents : List AlertEvent :=
  [.effectRun, .channelError, .timerFire, .reactivateFire,
   .effectRun, .channelError, .timerFire, .reactivateFire,
   .effectRun, .channelError, .timerFire]

/-- Witness for C6 at the concrete reachable state reached after three
failed reconnect attempts. -/
theorem C6_witness :
    (runAlert demoCfg demoEvents).reconnectAttempts = maxReconnectAttempts ∧
    (runAlert demoCfg demoEvents).channelOpen = true ∧
    (alertStep demoCfg (runAlert demoCfg demoEvents) .channelError).reconnectTimer = none ∧
    (alertStep demoCfg (runAlert demoCfg demoEvents) .channelError).connectionStatus
      = "연결 실패" := by
  have h := C6_invariant demoCfg (runAlert demoCfg demoEvents)
    (runAlert_reachable demoCfg demoEvents)
  have hmax : (runAlert demoCfg demoEvents).reconnectAttempts = maxReconnectAttempts := by
    decide
  have hch : (runAlert demoCfg demoEvents).channelOpen = true := by decide
  have hn := (h.2 hmax).1
  exact ⟨hmax, hch, hn.1, hn.2.2.2.2.2 hch⟩

/-! ### Claim C7 -/

/-- The reconnect delay computed at line 133:
`Math.min(5000 * nextAttempt, 30000)` where `nextAttempt = attempt + 1`. -/
def reconnectDelay (attempt : Nat) : Nat := min (5000 * (attempt + 1)) 30000

/-- Claim C7: for attempts within the configured range the computed
reconnect delay is monotonically non-decreasing and never exceeds the
30000 ms cap. -/
theorem C7_delay_monotone_bounded (a b : Nat) (hab : a ≤ b)
    (_hb : b ≤ maxReconnectAttempts) :
    reconnectDelay a ≤ reconnectDelay b ∧ reconnectDelay a ≤ 30000 := by
  unfold reconnectDelay
  constructor
  · exact min_le_min (by omega) le_rfl
  · exact min_le_right _ _

/-- Witness for C7 at attempts 1 and 2. -/
theorem C7_witness :
    ((1 : Nat) ≤ 2 ∧ (2 : Nat) ≤ maxReconnectAttempts) ∧
    reconnectDelay 1 ≤ reconnectDelay 2 ∧ reconnectDelay 1 ≤ 30000 :=
  ⟨⟨by decide, by decide⟩, C7_delay_monotone_bounded 1 2 (by decide) (by decide)⟩

/-! ### Claim C8 -/

/-- A reachable-shaped state that is not showing an alert and carries a
non-zero reconnect counter. -/
def aState2 : AlertState := { initAlertState with reconnectAttempts := 2 }

/-- Claim C8 as stated is false in its no-op half: called in a state that
is not `Disabled` (no alert showing) with reconnect counter 2, both
handlers still mutate the state — they reset the counter to zero and
schedule the cooldown — instead of being a no-op. -/
theorem C8_counterexample :
    aState2.isFallDetected = false ∧
    aState2.reconnectAttempts = 2 ∧
    handleAlertCancel aState2 ≠ aState2 ∧
    handleEmergencyCall aState2 ≠ aState2 ∧
    (handleAlertCancel aState2).reconnectAttempts = 0 ∧
    (handleAlertCancel aState2).cooldownPending = true := by
  decide

/-- Claim C8 (amended): `handleAlertCancel` and `handleEmergencyCall` act
unconditionally from every state: they hide the alert, reset the
reconnect counter to zero and schedule the cooldown whose firing
re-activates the subscription (returning the monitor towards
`Connecting`).  From the alert-showing state this is exactly the claimed
behaviour; from any other state the call is not a no-op, because the same
resets happen there too. -/
theorem C8_amended (s : AlertState) (cfg : SupabaseConfig) :
    (handleAlertCancel s).isFallDetected = false ∧
    (handleAlertCancel s).reconnectAttempts = 0 ∧
    (handleAlertCancel s).cooldownPending = true ∧
    (alertStep cfg (handleAlertCancel s) .cooldownFire).isSubscriptionActive = true ∧
    (handleEmergencyCall s).isFallDetected = false ∧
    (handleEmergencyCall s).reconnectAttempts = 0 ∧
    (handleEmergencyCall s).cooldownPending = true ∧
    (alertStep cfg (handleEmergencyCall s) .cooldownFire).isSubscriptionActive = true := by
  refine ⟨rfl, rfl, rfl, ?_, rfl, rfl, rfl, ?_⟩ <;>
    simp [alertStep, handleAlertCancel, handleEmergencyCall]

/-! ### Claim C10 -/

/-- Invariant of a badly-configured hook: no channel is ever open, the
subscription stays active (nothing can suspend it without a channel), and
no reconnect or reactivation timeout is ever pending. -/
def BadInv (s : AlertState) : Prop :=
  s.channelOpen = false ∧ s.isSubscriptionActive = true ∧
  s.reconnectTimer = none ∧ s.reactivatePending = false

/-- Under a bad configuration every event preserves `BadInv`. -/
theorem badConfig_step (cfg : SupabaseConfig) (hbad : badConfig cfg)
    (s : AlertState) (e : AlertEvent) (h : BadInv s) : BadInv (alertStep cfg s e) := by
  obtain ⟨hch, hact, htm, hrp⟩ := h
  cases e with
  | effectRun =>
      simp only [alertStep]
      unfold effectBody
      split_ifs with g1 g2 g3 g4
      · exact ⟨rfl, hact, rfl, hrp⟩
      · exact ⟨rfl, hact, rfl, hrp⟩
      · exact ⟨rfl, hact, rfl, hrp⟩
      · exact ⟨rfl, hact, rfl, hrp⟩
      · rcases hbad with hb | hb | hb
        · exact absurd (by simp [hb]) g3
        · exact absurd (by simp [hb]) g3
        · exact absurd hb g4
  | subscribed =>
      simp only [alertStep, hch]
      exact ⟨hch, hact, htm, hrp⟩
  | subErr m =>
      simp only [alertStep, hch]
      exact ⟨hch, hact, htm, hrp⟩
  | channelError =>
      simp only [alertStep, hch]
      exact ⟨hch, hact, htm, hrp⟩
  | timedOut =>
      simp only [alertStep, hch]
      exact ⟨hch, hact, htm, hrp⟩
  | closed =>
      simp only [alertStep, hch]
      exact ⟨hch, hact, htm, hrp⟩
  | fallInsert =>
      simp only [alertStep, hch]
      exact ⟨hch, hact, htm, hrp⟩
  | timerFire =>
      simp only [alertStep, htm]
      exact ⟨hch, hact, htm, hrp⟩
  | reactivateFire =>
      simp only [alertStep, hrp]
      exact ⟨hch, hact, htm, hrp⟩
  | cooldownFire =>
      simp only [alertStep]
      split_ifs with g
      · exact ⟨hch, rfl, htm, hrp⟩
      · exact ⟨hch, hact, htm, hrp⟩
  | alertCancel =>
      exact ⟨hch, hact, htm, hrp⟩
  | emergencyCall =>
      exact ⟨hch, hact, htm, hrp⟩

/-- Under a bad configuration every reachable state satisfies `BadInv`. -/
theorem badConfig_reachable (cfg : SupabaseConfig) (hbad : badConfig cfg)
    {s : AlertState} (h : Reachable cfg s) : BadInv s := by
  induction h with
  | init => exact ⟨rfl, rfl, rfl, rfl⟩
  | next e _ ih => exact badConfig_step cfg hbad _ e ih

/-- Claim C10: when the Supabase URL or anon key is absent (or empty), or
the key contains `service_role`, no reachable state of the hook ever has
an open realtime channel; re-running the effect still opens no channel
and only sets one of the two error connection statuses. -/
theorem C10_no_channel (cfg : SupabaseConfig) (hbad : badConfig cfg)
    (s : AlertState) (h : Reachable cfg s) :
    s.channelOpen = false ∧
    (alertStep cfg s .effectRun).channelOpen = false ∧
    ((alertStep cfg s .effectRun).connectionStatus = "환경변수 오류" ∨
     (alertStep cfg s .effectRun).connectionStatus = "보안 오류") := by
  have hb := badConfig_reachable cfg hbad h
  have hb2 := badConfig_step cfg hbad s .effectRun hb
  refine ⟨hb.1, hb2.1, ?_⟩
  simp only [alertStep]
  unfold effectBody
  split_ifs with g1 g2 g3 g4
  · simp [effectCleanup, hb.2.1] at g1
  · simp [effectCleanup] at g2
  · left; rfl
  · right; rfl
  · rcases hbad with hb' | hb' | hb'
    · exact absurd (by simp [hb']) g3
    · exact absurd (by simp [hb']) g3
    · exact absurd hb' g4

/-- A configuration whose key embeds `service_role`. -/
def demoBadCfg : SupabaseConfig :=
  { url := some "https://example.supabase.co",
    anonKey := some "abc-service_role-key" }

/-- Witness for C10 at the initial state and a `service_role` key. -/
theorem C10_witness :
    badConfig demoBadCfg ∧
    initAlertState.channelOpen = false ∧
    (alertStep demoBadCfg initAlertState .effectRun).channelOpen = false ∧
    ((alertStep demoBadCfg initAlertState .effectRun).connectionStatus = "환경변수 오류" ∨
     (alertStep demoBadCfg initAlertState .effectRun).connectionStatus = "보안 오류") := by
  have h := C10_no_channel demoBadCfg (by unfold badConfig; decide) initAlertState
    Reachable.init
  exact ⟨by unfold badConfig; decide, h.1, h.2.1, h.2.2⟩

end FallMon

namespace FallUi

/-! ## The fall-alert countdown

Shallow embedding of `FallAlert`
(`src/front/src/components/common/FallAlert.jsx`) wired to its caller:
`isVisible` mirrors the hook's `isFallDetected`; the countdown interval
(lines 24-33) runs only while visible (the effect clears it otherwise and
resets the countdown to 10, lines 17-22); the updater fires
`handleEmergencyCall` when the previous value is at most 1, which through
`onEmergencyCall` hides the alert; cancelling through `onCancel` hides the
alert without firing. -/

/-- The joint component/caller state: whether the alert modal is visible,
the countdown value, and how many times the emergency-call action has
fired. -/
structure FallAlertUi where
  visible : Bool
  countdown : Nat
  callsFired : Nat
  deriving DecidableEq, Repr

/-- State when a fall alert has just become visible: countdown at 10
(line 14), no call fired yet. -/
def uiInit : FallAlertUi := { visible := true, countdown := 10, callsFired := 0 }

/-- One second of the countdown interval (lines 24-33).  While hidden
there is no interval, so nothing happens.  A tick from a value above 1
just decrements; a tick from 1 (or below) triggers `handleEmergencyCall`,
which through `onEmergencyCall` hides the alert, whereupon the effect
clears the interval and resets the countdown to 10. -/
def uiTick (s : FallAlertUi) : FallAlertUi :=
  if s.visible = false then s
  else if s.countdown ≤ 1 then
    { visible := false, countdown := 10, callsFired := s.callsFired + 1 }
  else
    { s with countdown := s.countdown - 1 }

/-- The user pressing `연결취소` while the alert is visible (lines 45-49):
`onCancel` hides the alert, the effect clears the interval and resets the
countdown; invisible, the button does not exist. -/
def uiCancel (s : FallAlertUi) : FallAlertUi :=
  if s.visible = true then { s with visible := false, countdown := 10 } else s

/-- `n` seconds of the countdown interval. -/
def uiTicks : Nat → FallAlertUi → FallAlertUi
  | 0, s => s
  | n + 1, s => uiTicks n (uiTick s)

/-- Ticks compose additively. -/
theorem uiTicks_add (a b : Nat) (s : FallAlertUi) :
    uiTicks (a + b) s = uiTicks b (uiTicks a s) := by
  induction a generalizing s with
  | zero => simp [uiTicks]
  | succ a ih =>
      have : a + 1 + b = (a + b) + 1 := by omega
      rw [this]
      show uiTicks (a + b) (uiTick s) = uiTicks b (uiTicks (a + 1) s)
      rw [ih (uiTick s)]
      rfl

/-- Once the alert is hidden, ticks change nothing. -/
theorem uiTicks_invisible (m : Nat) (s : FallAlertUi) (h : s.visible = false) :
    uiTicks m s = s := by
  induction m with
  | zero => rfl
  | succ m ih =>
      show uiTicks m (uiTick s) = s
      rw [show uiTick s = s from by simp [uiTick, h]]
      exact ih

/-- Claim C9: from a freshly shown alert, no emergency call fires during
the first 9 seconds while the modal stays visible; the call fires exactly
at the tick that takes the 10-second countdown to zero; it never fires a
second time afterwards; and cancelling at any point within the window
stops the countdown so the automatic call never fires. -/
theorem C9_countdown :
    (∀ n, n < 10 → (uiTicks n uiInit).callsFired = 0 ∧ (uiTicks n uiInit).visible = true) ∧
    (uiTicks 10 uiInit).callsFired = 1 ∧
    (uiTicks 10 uiInit).visible = false ∧
    (∀ m, (uiTicks (10 + m) uiInit).callsFired = 1) ∧
    (∀ k m, k < 10 → (uiTicks m (uiCancel (uiTicks k uiInit))).callsFired = 0) := by
  refine ⟨by decide, by decide, by decide, ?_, ?_⟩
  · intro m
    rw [uiTicks_add, uiTicks_invisible m (uiTicks 10 uiInit) (by decide)]
    decide
  · intro k m hk
    have hb : ∀ n, n < 10 → (uiCancel (uiTicks n uiInit)).visible = false ∧
        (uiCancel (uiTicks n uiInit)).callsFired = 0 := by decide
    rw [uiTicks_invisible m (uiCancel (uiTicks k uiInit)) (hb k hk).1]
    exact (hb k hk).2

/-- Witness for C9: cancelling after 3 seconds, no call ever fires even 20
seconds later. -/
theorem C9_witness :
    ((3 : Nat) < 10) ∧
    (uiTicks 20 (uiCancel (uiTicks 3 uiInit))).callsFired = 0 ∧
    (uiTicks (10 + 5) uiInit).callsFired = 1 :=
  ⟨by decide, C9_countdown.2.2.2.2 3 20 (by decide), C9_countdown.2.2.2.1 5⟩

end FallUi

